import Mathlib

/-
  Verification of the cis-live switch-monitor against its specification.

  The visible source is `frontend/src/App.jsx` (the React UI) and `README.md`;
  the FastAPI backend `main.py` described by the README is not part of the
  visible tree, so the backend components (Command Guard, Poll Orchestrator,
  Snapshot Cache, Port Aggregator, History Tracker, single-flight coalescing)
  are modelled from the specification's contracts and marked as such in their
  doc comments.  Frontend functions (`unusedClr`, `filteredPorts`) are
  translated directly from `App.jsx`.
-/

namespace CisLive

/- ### Character-list utilities (substring / prefix / trim / lowercase) -/

/-- Lowercase a string character-by-character, as JavaScript
`String.prototype.toLowerCase` does for the ASCII identifiers involved. -/
def lowerStr (s : String) : String := ⟨s.data.map Char.toLower⟩

/-- Boolean test that `a` is an initial segment of `b`. -/
def leadsWith : List Char → List Char → Bool
  | [], _ => true
  | _ :: _, [] => false
  | a :: as, b :: bs => a == b && leadsWith as bs

/-- Boolean test that `need` occurs contiguously inside `hay`, the semantics of
JavaScript `String.prototype.includes`. -/
def containsL (hay need : List Char) : Bool :=
  match hay with
  | [] => need.isEmpty
  | _ :: t => leadsWith need hay || containsL t need

/-- Substring test on strings (JavaScript `includes`). -/
def strIncludes (hay need : String) : Bool := containsL hay.data need.data

/-- Strip leading and trailing whitespace from a character list. -/
def trimChars (l : List Char) : List Char :=
  ((l.dropWhile Char.isWhitespace).reverse.dropWhile Char.isWhitespace).reverse

theorem leadsWith_iff_append (a b : List Char) :
    leadsWith a b = true ↔ ∃ t, b = a ++ t := by
  induction a generalizing b with
  | nil => simp [leadsWith]
  | cons x xs ih =>
    cases b with
    | nil => simp [leadsWith]
    | cons y ys =>
      simp only [leadsWith, Bool.and_eq_true, beq_iff_eq, ih, List.cons_append,
        List.cons.injEq]
      constructor
      · rintro ⟨rfl, t, rfl⟩
        exact ⟨t, rfl, rfl⟩
      · rintro ⟨t, rfl, rfl⟩
        exact ⟨rfl, t, rfl⟩

/- ### Frontend: `unusedClr` (App.jsx line 121)

`const unusedClr = ms => { const d=ms/86400000;
   return d>90?"#e85530":d>30?"#c9860a":d>14?"#5a8020":"#78909c"; };`

Durations are millisecond counts; division is modelled exactly over `ℚ`. -/

/-- Display-band colour for an idle duration of `ms` milliseconds,
translated from `unusedClr` in App.jsx. -/
def unusedClr (ms : ℚ) : String :=
  let d : ℚ := ms / 86400000
  if d > 90 then "#e85530"
  else if d > 30 then "#c9860a"
  else if d > 14 then "#5a8020"
  else "#78909c"

/- ### Frontend: `filteredPorts` (App.jsx lines 575-580)

`const filteredPorts = ports.filter(p=>{
    if(filter==="unused") return p.isUnused;
    if(filter!=="all"&&p.status!==filter) return false;
    if(search&&!p.id.toLowerCase().includes(search.toLowerCase())
             &&!(p.description||"").toLowerCase().includes(search.toLowerCase()))
      return false;
    return true;
  });`

A port's `description` may be absent; `(p.description||"")` collapses absent
and empty to `""`, so it is modelled as a plain `String`.  An empty `search`
string is falsy in JavaScript, hence the `search ≠ ""` condition. -/

structure Port where
  id : String
  description : String
  status : String
  isUnused : Bool
deriving DecidableEq

/-- Predicate of the filter callback in `filteredPorts` (App.jsx 575-580). -/
def portKeep (filter search : String) (p : Port) : Bool :=
  if filter = "unused" then p.isUnused
  else if filter ≠ "all" ∧ p.status ≠ filter then false
  else if search ≠ "" ∧ ¬ (strIncludes (lowerStr p.id) (lowerStr search) = true)
        ∧ ¬ (strIncludes (lowerStr p.description) (lowerStr search) = true) then false
  else true

/-- Port-table row selection, translated from `filteredPorts` in App.jsx. -/
def filteredPorts (filter search : String) (ports : List Port) : List Port :=
  ports.filter (portKeep filter search)

/- ### Theorems for the frontend claims -/

/-- C9: `unusedClr` returns the 90d+ colour exactly when `d > 90`, the 30-90d
colour exactly when `30 < d ≤ 90`, the 14-30d colour exactly when
`14 < d ≤ 30`, and the neutral default colour whenever `d ≤ 14`, where
`d = ms / 86400000` is the idle duration in days; in particular a duration of
exactly 14, 30 or 90 days falls in the lower band. -/
theorem unusedClr_bands (ms : ℚ) :
    (unusedClr ms = "#e85530" ↔ 90 < ms / 86400000) ∧
    (unusedClr ms = "#c9860a" ↔ (30 < ms / 86400000 ∧ ms / 86400000 ≤ 90)) ∧
    (unusedClr ms = "#5a8020" ↔ (14 < ms / 86400000 ∧ ms / 86400000 ≤ 30)) ∧
    (ms / 86400000 ≤ 14 → unusedClr ms = "#78909c") := by
  unfold unusedClr
  dsimp only
  split_ifs with h1 h2 h3 <;>
    refine ⟨?_, ?_, ?_, ?_⟩ <;>
    simp_all <;> first
      | linarith
      | (intro h; linarith)

/-- C10: when the filter is `"unused"`, `filteredPorts` is exactly the ports
with `isUnused` true (status filter and search text are ignored); for every
other filter a port is kept iff its status equals the filter (or the filter is
`"all"`) and, when the search string is non-empty, the port id or description
contains it case-insensitively. -/
theorem filteredPorts_spec (filter search : String) (ports : List Port) :
    (filter = "unused" →
      filteredPorts filter search ports = ports.filter (fun p => p.isUnused)) ∧
    (filter ≠ "unused" → ∀ p : Port,
      (p ∈ filteredPorts filter search ports ↔
        p ∈ ports ∧ (filter = "all" ∨ p.status = filter) ∧
          (search ≠ "" →
            (strIncludes (lowerStr p.id) (lowerStr search) = true ∨
             strIncludes (lowerStr p.description) (lowerStr search) = true)))) := by
  constructor
  · rintro rfl
    unfold filteredPorts
    apply List.filter_congr
    intro p hp
    simp [portKeep]
  · intro hf p
    unfold filteredPorts
    rw [List.mem_filter]
    unfold portKeep
    rw [if_neg hf]
    constructor
    · rintro ⟨hp, hkeep⟩
      refine ⟨hp, ?_, ?_⟩
      · by_cases hall : filter = "all"
        · exact Or.inl hall
        · by_cases hst : p.status = filter
          · exact Or.inr hst
          · rw [if_pos ⟨hall, hst⟩] at hkeep; cases hkeep
      · intro hs
        by_cases hcond : filter ≠ "all" ∧ p.status ≠ filter
        · rw [if_pos hcond] at hkeep; cases hkeep
        · rw [if_neg hcond] at hkeep
          by_cases hid : strIncludes (lowerStr p.id) (lowerStr search) = true
          · exact Or.inl hid
          · by_cases hdesc : strIncludes (lowerStr p.description) (lowerStr search) = true
            · exact Or.inr hdesc
            · rw [if_pos ⟨hs, hid, hdesc⟩] at hkeep; cases hkeep
    · rintro ⟨hp, hstat, hsearch⟩
      refine ⟨hp, ?_⟩
      have hcond : ¬ (filter ≠ "all" ∧ p.status ≠ filter) := by
        rcases hstat with h | h
        · intro hc; exact hc.1 h
        · intro hc; exact hc.2 h
      rw [if_neg hcond]
      by_cases hs : search = ""
      · rw [if_neg (by intro hc; exact hc.1 hs)]
      · rcases hsearch hs with h | h
        · rw [if_neg (by intro hc; exact hc.2.1 h)]
        · rw [if_neg (by intro hc; exact hc.2.2 h)]

/- ### Command Guard (backend, modelled) -/

/-- Modelled from the spec: the backend `main.py` Command Guard is not in the
visible source tree.  Per the spec contract (and the README security note that
any command not starting with `show` is rejected), `permits` returns true iff
the command string, after trimming leading and trailing whitespace,
case-insensitively starts with the literal token `show`. -/
def permits (s : String) : Bool :=
  leadsWith "show".data ((trimChars s.data).map Char.toLower)

/-- C1: `permits` holds exactly when the trimmed command, lowercased, has the
literal token `show` as an initial segment; the spec's concrete examples are
decided accordingly. -/
theorem permits_spec :
    (∀ s : String, permits s = true ↔
      ∃ t, (trimChars s.data).map Char.toLower = "show".data ++ t) ∧
    permits "show interfaces status" = true ∧
    permits "SHOW version" = true ∧
    permits "configure terminal" = false ∧
    permits "shutdown" = false := by
  refine ⟨fun s => ?_, by decide, by decide, by decide, by decide⟩
  unfold permits
  exact leadsWith_iff_append _ _

/- ### Backend data model (modelled from the spec, section 3) -/

/-- Port operational status (spec data model: enum Up, Down, Disabled). -/
inductive PStatus
  | up
  | down
  | disabled
deriving DecidableEq

/-- Direction of a logged transition event (spec: event is Up or Down). -/
inductive UpDown
  | up
  | down
deriving DecidableEq

/-- One entry of a port's event log: a timestamped Up or Down transition. -/
structure PEvent where
  timestamp : Int
  event : UpDown
deriving DecidableEq

/- ### Port Aggregator (backend, modelled) -/

/-- One row of the parsed interface-status fragment. -/
structure StatusRow where
  id : String
  status : PStatus
  vlan : Nat
  duplex : String
  speedMbps : Nat
  description : String
deriving DecidableEq

/-- One row of the parsed interface-counters fragment. -/
structure CtrRow where
  id : String
  rxBytes : Nat
  txBytes : Nat
  rxErrors : Nat
  txErrors : Nat
deriving DecidableEq

/-- One row of the parsed power-inline (PoE) fragment. -/
structure PoeRow where
  id : String
  enabled : Bool
  watts : ℚ
deriving DecidableEq

/-- Canonical per-port record produced by the Aggregator. -/
structure AggPort where
  id : String
  status : PStatus
  vlan : Nat
  speedMbps : Nat
  description : String
  rxBytes : Nat
  txBytes : Nat
  poeEnabled : Bool
  poeWatts : ℚ
deriving DecidableEq

/-- Modelled from the spec: the backend `main.py` Port Aggregator is not in
the visible source tree.  Per the spec contract it joins the status, counters
and power fragments by port id (outer join); a fragment whose parser failed
(`none`) degrades its dimension to defaults across all ports and adds a
warning instead of failing the poll.  `buildPort` assembles the record of one
port id from whatever fragments parsed, defaulting each missing dimension. -/
def buildPort (statusFrag : Option (List StatusRow)) (ctrFrag : Option (List CtrRow))
    (powerFrag : Option (List PoeRow)) (i : String) : AggPort :=
  { id := i
    status := match (statusFrag.getD []).find? (fun r => r.id == i) with
      | some r => r.status | none => PStatus.down
    vlan := match (statusFrag.getD []).find? (fun r => r.id == i) with
      | some r => r.vlan | none => 0
    speedMbps := match (statusFrag.getD []).find? (fun r => r.id == i) with
      | some r => r.speedMbps | none => 0
    description := match (statusFrag.getD []).find? (fun r => r.id == i) with
      | some r => r.description | none => ""
    rxBytes := match (ctrFrag.getD []).find? (fun r => r.id == i) with
      | some r => r.rxBytes | none => 0
    txBytes := match (ctrFrag.getD []).find? (fun r => r.id == i) with
      | some r => r.txBytes | none => 0
    poeEnabled := match (powerFrag.getD []).find? (fun r => r.id == i) with
      | some r => r.enabled | none => false
    poeWatts := match (powerFrag.getD []).find? (fun r => r.id == i) with
      | some r => r.watts | none => 0 }

/-- Modelled from the spec: the Port Aggregator entry point — the joined port
list over the union of the fragments' ids, and one warning per fragment whose
parser failed. -/
def aggregate (statusFrag : Option (List StatusRow)) (ctrFrag : Option (List CtrRow))
    (powerFrag : Option (List PoeRow)) : List AggPort × List String :=
  let warnings :=
    (if statusFrag.isNone then ["interface-status parse failed; statuses defaulted"] else []) ++
    (if ctrFrag.isNone then ["interface-counters parse failed; counters defaulted"] else []) ++
    (if powerFrag.isNone then ["power-inline parse failed; PoE defaulted"] else [])
  let sIds := (statusFrag.getD []).map (fun r => r.id)
  let cIds := ((ctrFrag.getD []).map (fun r => r.id)).filter (fun i => !(sIds.contains i))
  let pIds := ((powerFrag.getD []).map (fun r => r.id)).filter
      (fun i => !(sIds.contains i) && !(cIds.contains i))
  ((sIds ++ cIds ++ pIds).map (buildPort statusFrag ctrFrag powerFrag), warnings)

/- ### History Tracker (backend, modelled) -/

/-- Per-port state held in a switch's history: the aggregated fields the
tracker reads plus the longitudinal data it maintains (`lastChanged`,
`events`, the unused classification, and the missing-port grace state). -/
structure HPort where
  id : String
  status : PStatus
  lastChanged : Int
  events : List PEvent
  isUnused : Bool
  unusedSince : Option Int
  stale : Bool
  missed : Nat
deriving DecidableEq

/-- Fields of one port in the newly aggregated poll that the tracker reads. -/
structure NewPort where
  id : String
  status : PStatus
deriving DecidableEq

/-- Event-log capacity (spec data model: bounded length, e.g. 50). -/
def eventCap : Nat := 50

/-- Idle threshold in milliseconds (spec: default 14 days). -/
def idleThresholdMs : Int := 14 * 86400000

/-- Modelled from the spec: unused classification, step 3 of the History
Tracker.  A port is unused when its current status is Down and the time since
its last transition exceeds the idle threshold; `unusedSince` equals
`lastChanged` while the classification holds and is `none` otherwise. -/
def classify (now : Int) (st : PStatus) (lastChanged : Int) : Bool × Option Int :=
  if st = PStatus.down ∧ idleThresholdMs < now - lastChanged then (true, some lastChanged)
  else (false, none)

/-- Modelled from the spec: the backend `main.py` History Tracker is not in
the visible source tree.  Per the spec contract, for a port present in the new
poll: on a status change an event is appended (log capped at `eventCap`,
oldest dropped) and `lastChanged` is set to `now`; otherwise `lastChanged` and
`events` are carried forward unmodified; the unused classification is then
recomputed.  A port with no history starts its log empty with
`lastChanged = now`. -/
def trackPort (now : Int) (np : NewPort) (oldOpt : Option HPort) : HPort :=
  match oldOpt with
  | none =>
      let u := classify now np.status now
      { id := np.id, status := np.status, lastChanged := now, events := [],
        isUnused := u.1, unusedSince := u.2, stale := false, missed := 0 }
  | some old =>
      if np.status = old.status then
        let u := classify now np.status old.lastChanged
        { id := np.id, status := np.status, lastChanged := old.lastChanged,
          events := old.events, isUnused := u.1, unusedSince := u.2,
          stale := false, missed := 0 }
      else
        let ev : PEvent :=
          { timestamp := now
            event := if np.status = PStatus.up then UpDown.up else UpDown.down }
        let u := classify now np.status now
        { id := np.id, status := np.status, lastChanged := now,
          events := (ev :: old.events).take eventCap,
          isUnused := u.1, unusedSince := u.2, stale := false, missed := 0 }

/-- Modelled from the spec: the full History Tracker update for a switch.
Every port of the new poll is updated via `trackPort` against its history
entry; a history port absent from the new poll is carried forward unmodified
but marked stale after a first consecutive miss, and dropped after a second
consecutive miss. -/
def track (now : Int) (news : List NewPort) (hist : List HPort) : List HPort :=
  let updated := news.map (fun n => trackPort now n (hist.find? (fun h => h.id == n.id)))
  let kept := (hist.filter (fun h => news.all (fun n => !(n.id == h.id)))).filterMap
      (fun h => if h.missed = 0 then some { h with stale := true, missed := 1 } else none)
  updated ++ kept

/- ### Snapshot Cache and Poll Orchestrator (backend, modelled) -/

/-- One complete aggregated view of a switch's ports at a capture time. -/
structure Snapshot where
  switchId : String
  capturedAt : Int
  ports : List HPort
deriving DecidableEq

/-- Reachability tri-state stored in the cache (true / false / unknown). -/
inductive Reach
  | yes
  | no
  | unknown
deriving DecidableEq

/-- Per-switch cache cell: the optional `(snapshot, capturedAt)` entry plus
the reachability tri-state of the most recent poll attempt. -/
structure SwitchCache where
  entry : Option (Snapshot × Int)
  reachable : Reach
deriving DecidableEq

/-- Session Client failure classification (spec section 4.2). -/
inductive ClientError
  | authFailure
  | unreachableHost
  | timedOut
  | protocolError
deriving DecidableEq

/-- Provenance annotation of a served snapshot. -/
inductive Source
  | live
  | cached
deriving DecidableEq

/-- A successful poll reply: the snapshot, its provenance, and whether a
staleness warning is attached. -/
structure PollReply where
  snapshot : Snapshot
  source : Source
  warned : Bool
deriving DecidableEq

/-- Cache TTL in milliseconds (README: `CACHE_TTL = 60` seconds). -/
def CACHE_TTL_MS : Int := 60000

/-- Freshness test of a cache entry: fresh while `now - capturedAt < TTL`. -/
def isFresh (now capturedAt : Int) : Bool := decide (now - capturedAt < CACHE_TTL_MS)

/-- Modelled from the spec: the cache-miss path of the Poll Orchestrator in
the missing backend `main.py`.  The session outcome is passed in as an
`Except` value.  On success the snapshot is cached and served live; on any
Session Client failure `reachable` is set to false and a previous snapshot,
if any, is served tagged cached with a warning, else the classified error is
returned.  The third component records whether a remote session was used. -/
def runSession (now : Int) (c : SwitchCache) (sess : Except ClientError Snapshot) :
    Except ClientError PollReply × SwitchCache × Bool :=
  match sess with
  | Except.ok snap =>
      (Except.ok { snapshot := snap, source := Source.live, warned := false },
       { entry := some (snap, now), reachable := Reach.yes }, true)
  | Except.error e =>
      match c.entry with
      | some (snap, capAt) =>
          (Except.ok { snapshot := snap, source := Source.cached, warned := true },
           { entry := some (snap, capAt), reachable := Reach.no }, true)
      | none => (Except.error e, { entry := none, reachable := Reach.no }, true)

/-- Modelled from the spec: the Poll Orchestrator entry point of the missing
backend `main.py`.  Without `forceRefresh`, a fresh cache entry is returned
unchanged with no remote session; otherwise the session runs via
`runSession`. -/
def poll (now : Int) (force : Bool) (c : SwitchCache) (sess : Except ClientError Snapshot) :
    Except ClientError PollReply × SwitchCache × Bool :=
  match c.entry with
  | some (snap, capAt) =>
      if !force && isFresh now capAt then
        (Except.ok { snapshot := snap, source := Source.cached, warned := false }, c, false)
      else runSession now c sess
  | none => runSession now c sess

/- ### Single-flight coalescing (backend, modelled) -/

/-- State of one switch's single-flight discipline: the waiters attached to
the in-progress poll attempt, if any, and the number of Session Client
invocations opened so far. -/
structure SFState where
  waiters : Option (List Nat)
  sessions : Nat
deriving DecidableEq

/-- Modelled from the spec: arrival of one `poll` caller under the per-switch
single-flight discipline of the missing backend `main.py`.  A caller arriving
with a fresh cache entry is served from it at once; otherwise, if an attempt
is already in flight the caller attaches to it, and only if none is in flight
a new Session Client invocation is opened. -/
def arrive (freshSnap : Option Snapshot) (caller : Nat) (s : SFState) :
    SFState × Option Snapshot :=
  match freshSnap with
  | some snap => (s, some snap)
  | none =>
      match s.waiters with
      | some ws => ({ s with waiters := some (ws ++ [caller]) }, none)
      | none => ({ waiters := some [caller], sessions := s.sessions + 1 }, none)

/-- Fold a burst of concurrent callers through `arrive`. -/
def burst (freshSnap : Option Snapshot) (callers : List Nat) (s : SFState) : SFState :=
  callers.foldl (fun st c => (arrive freshSnap c st).1) s

/-- Modelled from the spec: completion of the in-flight attempt delivers the
one resulting snapshot to every attached waiter and clears the handle. -/
def complete (snap : Snapshot) (s : SFState) : List (Nat × Snapshot) × SFState :=
  ((s.waiters.getD []).map (fun c => (c, snap)),
   { waiters := none, sessions := s.sessions })

/- ### Theorems about the History Tracker -/

theorem classify_spec (now : Int) (st : PStatus) (lastChanged : Int) :
    ((classify now st lastChanged).1 = true ↔
      (st = PStatus.down ∧ idleThresholdMs < now - lastChanged)) ∧
    ((classify now st lastChanged).1 = true →
      (classify now st lastChanged).2 = some lastChanged) ∧
    (st = PStatus.up →
      (classify now st lastChanged).1 = false ∧ (classify now st lastChanged).2 = none) := by
  unfold classify
  split_ifs with h <;> simp_all

theorem trackPort_id (now : Int) (np : NewPort) (oldOpt : Option HPort) :
    (trackPort now np oldOpt).id = np.id := by
  cases oldOpt with
  | none => rfl
  | some old => by_cases h : np.status = old.status <;> simp [trackPort, h]

theorem trackPort_status (now : Int) (np : NewPort) (oldOpt : Option HPort) :
    (trackPort now np oldOpt).status = np.status := by
  cases oldOpt with
  | none => rfl
  | some old => by_cases h : np.status = old.status <;> simp [trackPort, h]

/-- C3: after a History Tracker update, `isUnused` holds exactly when the
port's current status is Down and the time since `lastChanged` exceeds the
14-day idle threshold; while it holds, `unusedSince` equals `lastChanged`;
and a port reported Up has both `isUnused` and `unusedSince` cleared. -/
theorem trackPort_unused (now : Int) (np : NewPort) (oldOpt : Option HPort) :
    ((trackPort now np oldOpt).isUnused = true ↔
      ((trackPort now np oldOpt).status = PStatus.down ∧
        idleThresholdMs < now - (trackPort now np oldOpt).lastChanged)) ∧
    ((trackPort now np oldOpt).isUnused = true →
      (trackPort now np oldOpt).unusedSince = some ((trackPort now np oldOpt).lastChanged)) ∧
    (np.status = PStatus.up →
      (trackPort now np oldOpt).isUnused = false ∧
      (trackPort now np oldOpt).unusedSince = none) := by
  cases oldOpt with
  | none =>
      simpa [trackPort] using classify_spec now np.status now
  | some old =>
      by_cases h : np.status = old.status
      · simpa [trackPort, h] using classify_spec now np.status old.lastChanged
      · simpa [trackPort, h] using classify_spec now np.status now

/-- C7: on a History Tracker update of a port with history, a status change
appends the event for the new status at time `now` (log capped at `eventCap`,
oldest entries dropped) and sets `lastChanged` to `now`; an unchanged status
carries `lastChanged` and `events` forward exactly unmodified. -/
theorem trackPort_events (now : Int) (np : NewPort) (old : HPort) :
    (np.status ≠ old.status →
      (trackPort now np (some old)).events =
        (({ timestamp := now
            event := if np.status = PStatus.up then UpDown.up else UpDown.down } : PEvent)
          :: old.events).take eventCap ∧
      (trackPort now np (some old)).lastChanged = now) ∧
    (np.status = old.status →
      (trackPort now np (some old)).lastChanged = old.lastChanged ∧
      (trackPort now np (some old)).events = old.events) := by
  constructor
  · intro h
    simp [trackPort, h]
  · intro h
    simp [trackPort, h]

/-- C8: a port present in a switch's history but absent from the new poll is
carried forward unmodified apart from the stale marking after the first
consecutive miss, and a port with id absent from two consecutive polls is
gone from the second result — a port is never removed on a single miss. -/
theorem track_grace (now1 now2 : Int) (news1 news2 : List NewPort) (hist : List HPort)
    (h : HPort) (hmem : h ∈ hist) (hmiss : h.missed = 0)
    (habs1 : ∀ n ∈ news1, n.id ≠ h.id) (habs2 : ∀ n ∈ news2, n.id ≠ h.id) :
    ({ h with stale := true, missed := 1 } ∈ track now1 news1 hist) ∧
    (∀ p ∈ track now2 news2 (track now1 news1 hist), p.id ≠ h.id) := by
  have keptMissed : ∀ (hs : List HPort) (ns : List NewPort) (q : HPort),
      q ∈ (hs.filter (fun hp => ns.all (fun n => !(n.id == hp.id)))).filterMap
        (fun hp => if hp.missed = 0 then some { hp with stale := true, missed := 1 } else none) →
      q.missed = 1 := by
    intro hs ns q hq
    rcases List.mem_filterMap.mp hq with ⟨r, _, hre⟩
    by_cases hr0 : r.missed = 0
    · rw [if_pos hr0] at hre
      cases hre
      rfl
    · rw [if_neg hr0] at hre
      cases hre
  constructor
  · simp only [track]
    apply List.mem_append_right
    apply List.mem_filterMap.mpr
    refine ⟨h, ?_, ?_⟩
    · rw [List.mem_filter]
      refine ⟨hmem, ?_⟩
      rw [List.all_eq_true]
      intro n hn
      simpa using habs1 n hn
    · rw [if_pos hmiss]
  · intro p hp
    simp only [track, List.mem_append] at hp
    rcases hp with hp | hp
    · rcases List.mem_map.mp hp with ⟨n, hn, rfl⟩
      rw [trackPort_id]
      exact habs2 n hn
    · rcases List.mem_filterMap.mp hp with ⟨q, hq, hqe⟩
      by_cases hq0 : q.missed = 0
      · rw [if_pos hq0] at hqe
        cases hqe
        rw [List.mem_filter] at hq
        have hqmem := hq.1
        simp only [track, List.mem_append] at hqmem
        rcases hqmem with hqm | hqm
        · rcases List.mem_map.mp hqm with ⟨n, hn, rfl⟩
          show (trackPort now1 n _).id ≠ h.id
          rw [trackPort_id]
          exact habs1 n hn
        · exact absurd (keptMissed hist news1 q hqm) (by rw [hq0]; decide)
      · rw [if_neg hq0] at hqe
        cases hqe

/- ### Theorems about the Port Aggregator -/

/-- C6: when exactly the power-inline fragment fails to parse, aggregation
still succeeds: the warnings list is non-empty, every resulting port carries
the PoE defaults (`enabled = false`, `watts = 0`), every status row yields a
port, and each port's status, vlan and speed come from its interface-status
row. -/
theorem aggregate_power_failure (sr : List StatusRow) (cr : List CtrRow) :
    ((aggregate (some sr) (some cr) none).2 ≠ []) ∧
    (∀ p ∈ (aggregate (some sr) (some cr) none).1, p.poeEnabled = false ∧ p.poeWatts = 0) ∧
    (∀ r ∈ sr, ∃ p ∈ (aggregate (some sr) (some cr) none).1, p.id = r.id) ∧
    (∀ p ∈ (aggregate (some sr) (some cr) none).1,
      ∀ r, sr.find? (fun row => row.id == p.id) = some r →
        p.status = r.status ∧ p.vlan = r.vlan ∧ p.speedMbps = r.speedMbps) := by
  refine ⟨?_, ?_, ?_, ?_⟩
  · simp [aggregate]
  · intro p hp
    simp only [aggregate, List.mem_map] at hp
    rcases hp with ⟨i, _, rfl⟩
    exact ⟨rfl, rfl⟩
  · intro r hr
    refine ⟨buildPort (some sr) (some cr) none r.id, ?_, rfl⟩
    simp only [aggregate, List.mem_map]
    refine ⟨r.id, ?_, rfl⟩
    apply List.mem_append_left
    apply List.mem_append_left
    exact List.mem_map_of_mem (fun row => row.id) hr
  · intro p hp r hfind
    simp only [aggregate, List.mem_map] at hp
    rcases hp with ⟨i, _, rfl⟩
    have hid : (buildPort (some sr) (some cr) none i).id = i := rfl
    rw [hid] at hfind
    unfold buildPort
    simp only [Option.getD]
    rw [hfind]
    exact ⟨rfl, rfl, rfl⟩

/- ### Theorems about the Poll Orchestrator and cache -/

theorem runSession_used (now : Int) (c : SwitchCache) (sess : Except ClientError Snapshot) :
    (runSession now c sess).2.2 = true := by
  obtain ⟨entry, r⟩ := c
  cases sess with
  | ok snap => rfl
  | error e =>
      cases entry with
      | none => rfl
      | some pair => obtain ⟨snap, capAt⟩ := pair; rfl

/-- C4: with a cached entry captured at `capturedAt`, a non-forced poll while
`now - capturedAt < TTL` returns the cached snapshot unchanged with no remote
session, and a poll once `now - capturedAt` exceeds TTL uses a session; in
particular polls at `capturedAt + TTL - 1` and `capturedAt + TTL + 1`
milliseconds behave respectively so. -/
theorem poll_ttl (snap : Snapshot) (capAt : Int) (r : Reach)
    (sess : Except ClientError Snapshot) :
    (∀ now : Int, now - capAt < CACHE_TTL_MS →
      poll now false { entry := some (snap, capAt), reachable := r } sess =
        (Except.ok { snapshot := snap, source := Source.cached, warned := false },
         { entry := some (snap, capAt), reachable := r }, false)) ∧
    (∀ now : Int, CACHE_TTL_MS < now - capAt →
      (poll now false { entry := some (snap, capAt), reachable := r } sess).2.2 = true) ∧
    (poll (capAt + CACHE_TTL_MS - 1) false { entry := some (snap, capAt), reachable := r } sess =
      (Except.ok { snapshot := snap, source := Source.cached, warned := false },
       { entry := some (snap, capAt), reachable := r }, false)) ∧
    ((poll (capAt + CACHE_TTL_MS + 1) false { entry := some (snap, capAt), reachable := r } sess).2.2
      = true) := by
  have hserve : ∀ now : Int, now - capAt < CACHE_TTL_MS →
      poll now false { entry := some (snap, capAt), reachable := r } sess =
        (Except.ok { snapshot := snap, source := Source.cached, warned := false },
         { entry := some (snap, capAt), reachable := r }, false) := by
    intro now h
    simp [poll, isFresh, h]
  have hsess : ∀ now : Int, CACHE_TTL_MS < now - capAt →
      (poll now false { entry := some (snap, capAt), reachable := r } sess).2.2 = true := by
    intro now h
    have hfr : isFresh now capAt = false := by
      simp only [isFresh, decide_eq_false_iff_not, not_lt]
      omega
    simp [poll, hfr, runSession_used]
  refine ⟨hserve, hsess, hserve _ (by omega), hsess _ (by omega)⟩

/-- C5: on a poll in which the Session Client fails, the cache's reachability
is marked false; if a previous (possibly stale) snapshot exists it is returned
tagged cached with a warning, and only with no prior snapshot does the poll
fail with the classified error.  Stated for a forced poll and for a non-forced
poll whose entry has aged past the TTL. -/
theorem poll_failure (now : Int) (e : ClientError) (snap : Snapshot) (capAt : Int)
    (r : Reach) (force : Bool) :
    (poll now true { entry := some (snap, capAt), reachable := r } (Except.error e) =
      (Except.ok { snapshot := snap, source := Source.cached, warned := true },
       { entry := some (snap, capAt), reachable := Reach.no }, true)) ∧
    (poll now true { entry := none, reachable := r } (Except.error e) =
      (Except.error e, { entry := none, reachable := Reach.no }, true)) ∧
    (CACHE_TTL_MS ≤ now - capAt →
      poll now force { entry := some (snap, capAt), reachable := r } (Except.error e) =
        (Except.ok { snapshot := snap, source := Source.cached, warned := true },
         { entry := some (snap, capAt), reachable := Reach.no }, true)) := by
  refine ⟨rfl, rfl, ?_⟩
  intro h
  have hfr : isFresh now capAt = false := by
    simp only [isFresh, decide_eq_false_iff_not, not_lt]
    omega
  cases force with
  | true => rfl
  | false => simp [poll, hfr, runSession]

/- ### Theorems about single-flight coalescing -/

theorem burst_attach (cs : List Nat) :
    ∀ (ws : List Nat) (k : Nat),
      burst none cs { waiters := some ws, sessions := k } =
        { waiters := some (ws ++ cs), sessions := k } := by
  induction cs with
  | nil => intro ws k; simp [burst]
  | cons c cs ih =>
      intro ws k
      have hstep : burst none (c :: cs) { waiters := some ws, sessions := k } =
          burst none cs { waiters := some (ws ++ [c]), sessions := k } := by
        simp [burst, arrive]
      rw [hstep, ih]
      simp

/-- C2: a burst of N concurrent `poll` callers while no fresh cache entry
exists and nothing is in flight opens exactly one Session Client invocation,
leaves all N callers attached to that one attempt, and its completion hands
every caller the same snapshot. -/
theorem singleflight_coalesces (c : Nat) (cs : List Nat) (snap : Snapshot) :
    (burst none (c :: cs) { waiters := none, sessions := 0 }).sessions = 1 ∧
    (burst none (c :: cs) { waiters := none, sessions := 0 }).waiters = some (c :: cs) ∧
    (complete snap (burst none (c :: cs) { waiters := none, sessions := 0 })).1 =
      (c :: cs).map (fun k => (k, snap)) := by
  have h1 : burst none (c :: cs) { waiters := none, sessions := 0 } =
      { waiters := some (c :: cs), sessions := 1 } := by
    have hstep : burst none (c :: cs) { waiters := none, sessions := 0 } =
        burst none cs { waiters := some [c], sessions := 1 } := by
      simp [burst, arrive]
    rw [hstep, burst_attach]
    simp
  rw [h1]
  simp [complete]

/- ### Concrete evaluations used by the witnesses -/

/-- Demonstration snapshot used by the orchestrator witnesses. -/
def demoSnap : Snapshot := { switchId := "sw1", capturedAt := 0, ports := [] }

/-- Demonstration interface-status row used by the aggregator witness. -/
def demoRow : StatusRow :=
  { id := "Gi1", status := PStatus.up, vlan := 10, duplex := "full",
    speedMbps := 1000, description := "ap" }

/-- Demonstration history port used by the tracker witnesses. -/
def demoHist : HPort :=
  { id := "Gi9", status := PStatus.down, lastChanged := 0, events := [],
    isUnused := false, unusedSince := none, stale := false, missed := 0 }

/-- Witness for C9 at concrete durations: one idle day renders the neutral
default colour and ninety-one idle days render the 90d+ colour. -/
theorem unusedClr_bands_witness :
    unusedClr 86400000 = "#78909c" ∧ unusedClr (91 * 86400000) = "#e85530" :=
  ⟨(unusedClr_bands 86400000).2.2.2 (by norm_num),
   (unusedClr_bands (91 * 86400000)).1.mpr (by norm_num)⟩

/-- Witness for C10 at a concrete port list: the unused filter keeps exactly
the unused port, and under the `"up"` filter with empty search the up port is
kept. -/
theorem filteredPorts_spec_witness :
    (filteredPorts "unused" "gi"
        [{ id := "Gi1/0/1", description := "uplink", status := "up", isUnused := false },
         { id := "Gi1/0/2", description := "", status := "down", isUnused := true }] =
      [{ id := "Gi1/0/2", description := "", status := "down", isUnused := true }]) ∧
    (({ id := "Gi1/0/1", description := "uplink", status := "up", isUnused := false } : Port) ∈
      filteredPorts "up" ""
        [{ id := "Gi1/0/1", description := "uplink", status := "up", isUnused := false },
         { id := "Gi1/0/2", description := "", status := "down", isUnused := true }]) :=
  ⟨(filteredPorts_spec "unused" "gi"
      [{ id := "Gi1/0/1", description := "uplink", status := "up", isUnused := false },
       { id := "Gi1/0/2", description := "", status := "down", isUnused := true }]).1 rfl,
   ((filteredPorts_spec "up" ""
      [{ id := "Gi1/0/1", description := "uplink", status := "up", isUnused := false },
       { id := "Gi1/0/2", description := "", status := "down", isUnused := true }]).2
     (by decide)
     { id := "Gi1/0/1", description := "uplink", status := "up", isUnused := false }).mpr
     ⟨by decide, Or.inr rfl, fun hs => absurd rfl hs⟩⟩

/-- Witness for C3: a port Down since time 0 polled Down again 15 days later
is classified unused with `unusedSince` equal to its `lastChanged`. -/
theorem trackPort_unused_witness :
    (trackPort 1296000000 { id := "Gi9", status := PStatus.down } (some demoHist)).unusedSince =
      some ((trackPort 1296000000 { id := "Gi9", status := PStatus.down }
        (some demoHist)).lastChanged) :=
  (trackPort_unused 1296000000 { id := "Gi9", status := PStatus.down } (some demoHist)).2.1
    (by decide)

/-- Witness for C7: an Up report over a Down history appends an Up event at
the poll time without erasing the prior Down event, and stamps
`lastChanged`. -/
theorem trackPort_events_witness :
    (trackPort 5 { id := "p1", status := PStatus.up }
        (some { id := "p1", status := PStatus.down, lastChanged := 0,
                events := [{ timestamp := 0, event := UpDown.down }], isUnused := false,
                unusedSince := none, stale := false, missed := 0 })).events =
      [{ timestamp := 5, event := UpDown.up }, { timestamp := 0, event := UpDown.down }] ∧
    (trackPort 5 { id := "p1", status := PStatus.up }
        (some { id := "p1", status := PStatus.down, lastChanged := 0,
                events := [{ timestamp := 0, event := UpDown.down }], isUnused := false,
                unusedSince := none, stale := false, missed := 0 })).lastChanged = 5 :=
  (trackPort_events 5 { id := "p1", status := PStatus.up }
      { id := "p1", status := PStatus.down, lastChanged := 0,
        events := [{ timestamp := 0, event := UpDown.down }], isUnused := false,
        unusedSince := none, stale := false, missed := 0 }).1 (by decide)

/-- Witness for C8: a history port missing from one empty poll survives it
stale-marked, and is gone after a second empty poll. -/
theorem track_grace_witness :
    (({ id := "Gi9", status := PStatus.down, lastChanged := 0, events := [],
        isUnused := false, unusedSince := none, stale := true, missed := 1 } : HPort) ∈
      track 100 [] [demoHist]) ∧
    (∀ p ∈ track 200 [] (track 100 [] [demoHist]), p.id ≠ "Gi9") :=
  track_grace 100 200 [] [] [demoHist] demoHist (by decide) (by decide)
    (by simp) (by simp)

/-- Witness for C6: aggregating one status row and empty counters with a
failed power fragment warns, defaults PoE on the built port, and yields a
port for the status row. -/
theorem aggregate_power_failure_witness :
    ((aggregate (some [demoRow]) (some []) none).2 ≠ []) ∧
    ((buildPort (some [demoRow]) (some []) none "Gi1").poeEnabled = false ∧
     (buildPort (some [demoRow]) (some []) none "Gi1").poeWatts = 0) ∧
    (∃ p ∈ (aggregate (some [demoRow]) (some []) none).1, p.id = "Gi1") :=
  ⟨(aggregate_power_failure [demoRow] []).1,
   (aggregate_power_failure [demoRow] []).2.1
     (buildPort (some [demoRow]) (some []) none "Gi1") (by decide),
   (aggregate_power_failure [demoRow] []).2.2.1 demoRow (by decide)⟩

/-- Witness for C4: with an entry captured at time 0, a poll at 59999 ms is
served from cache with no session, and a poll at 60001 ms uses a session. -/
theorem poll_ttl_witness :
    (poll 59999 false { entry := some (demoSnap, 0), reachable := Reach.unknown }
        (Except.ok demoSnap) =
      (Except.ok { snapshot := demoSnap, source := Source.cached, warned := false },
       { entry := some (demoSnap, 0), reachable := Reach.unknown }, false)) ∧
    ((poll 60001 false { entry := some (demoSnap, 0), reachable := Reach.unknown }
        (Except.ok demoSnap)).2.2 = true) :=
  ⟨(poll_ttl demoSnap 0 Reach.unknown (Except.ok demoSnap)).1 59999 (by decide),
   (poll_ttl demoSnap 0 Reach.unknown (Except.ok demoSnap)).2.1 60001 (by decide)⟩

/-- Witness for C5: a non-forced poll at exactly the TTL boundary whose
session times out serves the stale snapshot tagged cached with a warning and
marks the switch unreachable. -/
theorem poll_failure_witness :
    poll 60000 false { entry := some (demoSnap, 0), reachable := Reach.unknown }
        (Except.error ClientError.timedOut) =
      (Except.ok { snapshot := demoSnap, source := Source.cached, warned := true },
       { entry := some (demoSnap, 0), reachable := Reach.no }, true) :=
  (poll_failure 60000 ClientError.timedOut demoSnap 0 Reach.unknown false).2.2 (by decide)

end CisLive
